import Mathlib

/-!
Verification of the streaming frame-recovery pipeline in `src/video_capture.py`
(class `KVSStreamConsumer`).  Byte buffers are embedded as `List Nat`; the
external decoder (OpenCV) and the remote stream are embedded as oracles supplied
through environment records, so every theorem quantifies over all possible
decoder/stream behaviours.  Loops are embedded as structural or fuelled
recursion; the fuel of a scan loop is the buffer length plus one, which can
never be exhausted because each iteration strictly advances the scan position
while the loop guard bounds it by the buffer length.
-/

namespace VideoCapture

set_option maxRecDepth 4000

/-- Embedding of Python `bytes.find(pat)` restricted to the given list: offset of
the first occurrence of `pat` as a contiguous sublist, `none` when absent. -/
def subFind (pat : List Nat) : List Nat → Option Nat
  | [] => if pat.isPrefixOf [] then some 0 else none
  | x :: t =>
    if pat.isPrefixOf (x :: t) then some 0
    else (subFind pat t).map (· + 1)

/-- Embedding of Python `buffer.find(pat, start)`: first index at or after
`start` where `pat` occurs in `buf`. -/
def bufFind (buf pat : List Nat) (start : Nat) : Option Nat :=
  (subFind pat (buf.drop start)).map (· + start)

/-- JPEG SOI marker `\xFF\xD8` (line 446). -/
def jpegStartMarker : List Nat := [0xFF, 0xD8]

/-- JPEG EOI marker `\xFF\xD9` (line 447). -/
def jpegEndMarker : List Nat := [0xFF, 0xD9]

/-- Buffer trim of `_process_live_stream_data` (lines 248-250): when the buffer
exceeds 500000 bytes it is replaced by its last 300000 bytes. -/
def trimBuffer (buf : List Nat) : List Nat :=
  if buf.length > 500000 then buf.drop (buf.length - 300000) else buf

/-- Scan loop of `_extract_jpeg_from_buffer` (lines 449-491).  `valid` is the
oracle for "the written file decodes with `cv2.imread`" (the exception path of
lines 486-489 also yields `false`: in both cases the file is unlinked and not
counted).  Returns the extracted count and the persisted frame indices. -/
def jpegScanLoop (valid : List Nat → Bool) (buf : List Nat) (offset : Nat) :
    Nat → Nat → Nat → List Nat → Nat × List Nat
  | 0, _, count, acc => (count, acc)
  | fuel + 1, pos, count, acc =>
    if pos < buf.length - 1000 ∧ count < 5 then
      match bufFind buf jpegStartMarker pos with
      | none => (count, acc)
      | some startPos =>
        match bufFind buf jpegEndMarker (startPos + 2) with
        | none => jpegScanLoop valid buf offset fuel (startPos + 2) count acc
        | some endPos =>
          let jpegData := (buf.drop startPos).take (endPos + 2 - startPos)
          if valid jpegData then
            jpegScanLoop valid buf offset fuel (endPos + 2) (count + 1)
              (acc ++ [offset + count + 1])
          else
            jpegScanLoop valid buf offset fuel (endPos + 2) count acc
    else (count, acc)

/-- Embedding of `_extract_jpeg_from_buffer` (lines 439-498). -/
def extract_jpeg_from_buffer (valid : List Nat → Bool) (buf : List Nat)
    (offset : Nat) : Nat × List Nat :=
  jpegScanLoop valid buf offset (buf.length + 1) 0 0 []

/-- H.264 4-byte start code (line 508). -/
def h264StartCode4 : List Nat := [0x00, 0x00, 0x00, 0x01]

/-- H.264 3-byte start code (line 509). -/
def h264StartCode3 : List Nat := [0x00, 0x00, 0x01]

/-- VP8 keyframe signature (line 514). -/
def vp8Keyframe : List Nat := [0x9D, 0x01, 0x2A]

/-- VP9 frame signature (line 515). -/
def vp9FrameSig : List Nat := [0x82]

/-- The `all_signatures` table of `_extract_raw_video_frames` in source order; the Bool
records whether the pattern is an H.264 start code (line 531). -/
def allSignatures : List (List Nat × Bool) :=
  [(h264StartCode4, true), (h264StartCode3, true), (vp8Keyframe, false),
   (vp9FrameSig, false)]

/-- Earliest signature match at or after `pos` (lines 522-531): iterate the
signature table in order, keeping a strictly smaller position when found. -/
def earliestSignature (buf : List Nat) (pos : Nat) : Option (Nat × Bool) :=
  allSignatures.foldl
    (fun best sig =>
      match bufFind buf sig.1 pos with
      | none => best
      | some p =>
        match best with
        | none => some (p, sig.2)
        | some q => if p < q.1 then some (p, sig.2) else best)
    none

/-- One entry of the raw-scanner trace: match position, codec family, decode
success, and the scan position after the attempt. -/
structure RawTraceEntry where
  matchPos : Nat
  isH264 : Bool
  success : Bool
  newPos : Nat
deriving DecidableEq

/-- Scratch-file name of `_try_decode_raw_frame` (line 570). -/
def rawScratchName (frameIndex : Nat) (isH264 : Bool) : String :=
  "temp_raw_" ++ toString frameIndex ++ (if isH264 then ".mp4" else ".webm")

/-- Synthesized container header of `_try_decode_raw_frame` (lines 561-568):
empty for H.264 (MP4 shim), the EBML signature for VP8/VP9 (WebM shim). -/
def rawHeader (isH264 : Bool) : List Nat :=
  if isH264 then [] else [0x1A, 0x45, 0xDF, 0xA3]

/-- Embedding of `_try_decode_raw_frame` (lines 557-604): write header plus candidate bytes
to a scratch file, ask the decoder oracle for one frame; the `finally` block
removes the scratch file on every path.  `decode` bundles `cv2.VideoCapture`,
`cap.read` and `cv2.imwrite` success on the written bytes.  Returns the success
flag and the scratch-file list after the call. -/
def try_decode_raw_frame (decode : Bool → List Nat → Bool) (frameData : List Nat)
    (frameIndex : Nat) (isH264 : Bool) (scratch : List String) :
    Bool × List String :=
  let name := rawScratchName frameIndex isH264
  let fileBytes := rawHeader isH264 ++ frameData
  let created := scratch ++ [name]
  let ok := decode isH264 fileBytes
  (ok, created.erase name)

/-- Result of the raw codec-unit scanner. -/
structure RawResult where
  count : Nat
  persisted : List Nat
  trace : List RawTraceEntry
  scratch : List String
deriving DecidableEq

/-- Scan loop of `_extract_raw_video_frames` (lines 520-548): find the earliest
signature, take a window of at most 51200 bytes, attempt a single-frame decode,
then advance the scan position by the fixed stride 1000 past the match position
whether or not the decode succeeded (line 548). -/
def rawScanLoop (decode : Bool → List Nat → Bool) (buf : List Nat)
    (offset : Nat) :
    Nat → Nat → Nat → List Nat → List RawTraceEntry → List String → RawResult
  | 0, _, count, acc, tr, scratch => ⟨count, acc, tr, scratch⟩
  | fuel + 1, pos, count, acc, tr, scratch =>
    if pos < buf.length - 10000 ∧ count < 3 then
      match earliestSignature buf pos with
      | none => ⟨count, acc, tr, scratch⟩
      | some m =>
        let frameEnd := min (m.1 + 51200) buf.length
        let frameData := (buf.drop m.1).take (frameEnd - m.1)
        let d := try_decode_raw_frame decode frameData (offset + count) m.2 scratch
        let newPos := m.1 + 1000
        if d.1 then
          rawScanLoop decode buf offset fuel newPos (count + 1)
            (acc ++ [offset + count + 1]) (tr ++ [⟨m.1, m.2, true, newPos⟩]) d.2
        else
          rawScanLoop decode buf offset fuel newPos count acc
            (tr ++ [⟨m.1, m.2, false, newPos⟩]) d.2
    else ⟨count, acc, tr, scratch⟩

/-- Embedding of `_extract_raw_video_frames` (lines 500-555). -/
def extract_raw_video_frames (decode : Bool → List Nat → Bool) (buf : List Nat)
    (offset : Nat) (scratch : List String) : RawResult :=
  rawScanLoop decode buf offset (buf.length + 1) 0 0 [] [] scratch

/-- Oracle for the container trial decoder, indexed by candidate number
(0 = webm, 1 = mkv, 2 = mp4).  `writeRaises k` models an exception while
writing the scratch file of candidate `k`; `isOpened k` models
`cap.isOpened()`; `reads k` is the finite sequence of `cap.read()` outcomes
(`none` = no frame returned, `some w` = a frame decoded with `w` the
`cv2.imwrite` success).  The scratch bytes written are identical for all
candidates (all headers are empty, line 348-352), so only the extension, hence
the candidate index, can influence the decoder. -/
structure ContainerEnv where
  writeRaises : Nat → Bool
  isOpened : Nat → Bool
  reads : Nat → List (Option Bool)

/-- Candidate container extensions in source order (lines 348-352). -/
def indexedFormats : List (Nat × String) := [(0, "webm"), (1, "mkv"), (2, "mp4")]

/-- Scratch-file name `temp_stream_{frame_offset}.{fmt}` (line 358). -/
def containerScratchName (offset : Nat) (fmt : String) : String :=
  "temp_stream_" ++ toString offset ++ "." ++ fmt

/-- The `cap.read` / `cv2.imwrite` loop of one opened candidate (lines 375-398):
`frameCount` and `extracted` both advance only on a successful `imwrite`; on an
`imwrite` failure the loop simply reads the next frame under the same sequence
number.  Returns the new extracted count and the persisted frame indices. -/
def containerDecodeLoop (offset maxF : Nat) :
    List (Option Bool) → Nat → Nat → List Nat → Nat × List Nat
  | [], _, extracted, acc => (extracted, acc)
  | r :: rest, frameCount, extracted, acc =>
    if frameCount < maxF then
      match r with
      | none => (extracted, acc)
      | some w =>
        if w then
          containerDecodeLoop offset maxF rest (frameCount + 1) (extracted + 1)
            (acc ++ [offset + extracted + 1])
        else
          containerDecodeLoop offset maxF rest frameCount extracted acc
    else (extracted, acc)

/-- State threaded through the three extraction methods: running extracted
count, persisted frame indices, and the scratch files currently on disk. -/
structure MethodState where
  extracted : Nat
  persisted : List Nat
  scratch : List String
deriving DecidableEq

/-- One candidate container attempt (lines 354-417): write the buffer to a
scratch file (an exception there is caught and the candidate skipped), try to
open it, run the decode loop when openable with cap
`min(5, 10 - frame_offset)` (line 376), and remove the scratch file in the
`finally` block on every path. -/
def containerAttempt (cenv : ContainerEnv) (offset : Nat) (k : Nat)
    (fmt : String) (st : MethodState) : MethodState :=
  let name := containerScratchName offset fmt
  if cenv.writeRaises k then
    { st with scratch := (st.scratch ++ [name]).erase name }
  else
    let scratch1 := st.scratch ++ [name]
    if cenv.isOpened k then
      let maxF := min 5 (10 - offset)
      let r := containerDecodeLoop offset maxF (cenv.reads k) 0 st.extracted
        st.persisted
      ⟨r.1, r.2, scratch1.erase name⟩
    else
      { st with scratch := scratch1.erase name }

/-- The candidate loop of Method 1 (lines 354-417): try each extension in
order, stopping as soon as some candidate has extracted at least one frame.
Also counts how many candidates were attempted. -/
def containerGo (cenv : ContainerEnv) (offset : Nat) :
    List (Nat × String) → MethodState → Nat → MethodState × Nat
  | [], st, tried => (st, tried)
  | (k, fmt) :: rest, st, tried =>
    if st.extracted > 0 then (st, tried)
    else containerGo cenv offset rest (containerAttempt cenv offset k fmt st)
      (tried + 1)

/-- Oracles consumed by one invocation of the extraction cascade. -/
structure CascadeEnv where
  container : ContainerEnv
  jpegValid : List Nat → Bool
  rawDecode : Bool → List Nat → Bool

/-- Result of one invocation of `_extract_frames_from_stream_buffer`. -/
structure CascadeResult where
  count : Nat
  persisted : List Nat
  containerCount : Nat
  candidatesTried : Nat
  jpegCount : Nat
  invokedRaw : Bool
  rawCount : Nat
  rawTrace : List RawTraceEntry
  scratch : List String
deriving DecidableEq

/-- Methods 2 and 3 of `_extract_frames_from_stream_buffer` (lines 419-432),
run after the container method finished in state `st1` having attempted
`tried` candidates: the embedded JPEG scan runs only when Method 1 extracted
nothing (line 420), the raw codec-unit scan only when the count is still zero
(line 426). -/
def cascadeFallbacks (env : CascadeEnv) (buf : List Nat) (offset : Nat)
    (st1 : MethodState) (tried : Nat) : CascadeResult :=
  let j := if st1.extracted = 0 then extract_jpeg_from_buffer env.jpegValid buf offset
           else (0, [])
  let countAfterJpeg := st1.extracted + j.1
  let invokeRaw := countAfterJpeg == 0
  let r := if invokeRaw then extract_raw_video_frames env.rawDecode buf offset st1.scratch
           else ⟨0, [], [], st1.scratch⟩
  { count := countAfterJpeg + r.count
    persisted := st1.persisted ++ j.2 ++ r.persisted
    containerCount := st1.extracted
    candidatesTried := tried
    jpegCount := j.1
    invokedRaw := invokeRaw
    rawCount := r.count
    rawTrace := r.trace
    scratch := r.scratch }

/-- Embedding of `_extract_frames_from_stream_buffer` (lines 341-437): Method 1 tries the
three container candidates in order; the two fallback scanners follow. -/
def extract_frames_from_stream_buffer (env : CascadeEnv) (buf : List Nat)
    (offset : Nat) : CascadeResult :=
  let c := containerGo env.container offset indexedFormats ⟨0, [], []⟩ 0
  cascadeFallbacks env buf offset c.1 c.2

/-- Environment of one consumption session.  `chunks` are the successive
non-error results of `stream_payload.read(65536)` (the stream ends when the
list is exhausted or an empty chunk appears); `timeout i` models the
`elapsed_time > 60` test at the top of iteration `i`; `readRaises i` models an
exception raised by the `i`-th read; `cenv n` supplies the decoder oracles of
the `n`-th cascade invocation; `startupOk` models whether `get_media`
succeeded in `consume_stream`. -/
structure SessionEnv where
  chunks : List (List Nat)
  timeout : Nat → Bool
  readRaises : Nat → Bool
  cenv : Nat → CascadeEnv
  startupOk : Bool

/-- Mutable state of `_process_live_stream_data`, plus the model-level trace of
persisted frame indices, checkpoint outcomes and leftover scratch files. -/
structure SessState where
  buffer : List Nat
  frames : Nat
  saved : Nat
  bytes : Nat
  chunkCount : Nat
  persisted : List Nat
  cascades : Nat
  checkpointLog : List (Nat × Nat × Nat)
  scratch : List String
deriving DecidableEq

/-- Initial session state (lines 184-195). -/
def initState : SessState := ⟨[], 0, 0, 0, 0, [], 0, [], []⟩

/-- One checkpoint (lines 231-250): invoke the extraction cascade on the
accumulated buffer at offset `frames_extracted`, add any new frames, then trim
the buffer.  The checkpoint log records (offset, cascade count, container
count). -/
def runCheckpoint (env : SessionEnv) (st : SessState) : SessState :=
  let r := extract_frames_from_stream_buffer (env.cenv st.cascades) st.buffer
    st.frames
  let st1 :=
    if r.count > 0 then
      { st with frames := st.frames + r.count, saved := st.saved + r.count }
    else st
  { st1 with
    buffer := trimBuffer st1.buffer
    persisted := st.persisted ++ r.persisted
    cascades := st.cascades + 1
    checkpointLog := st.checkpointLog ++ [(st.frames, r.count, r.containerCount)]
    scratch := st.scratch ++ r.scratch }

/-- Main reading loop of `_process_live_stream_data` (lines 200-270): while the
target is not reached, check the timeout, read a chunk (an empty read or a read
error breaks the loop), append it to the buffer, and fire a checkpoint when
`chunk_count % 3 == 0` and the buffer exceeds 200000 bytes. -/
def sessionLoop (env : SessionEnv) (maxFrames : Nat) :
    List (List Nat) → SessState → SessState
  | chunks, st =>
    if st.frames < maxFrames then
      if env.timeout st.chunkCount then st
      else if env.readRaises st.chunkCount then st
      else
        match chunks with
        | [] => st
        | c :: rest =>
          if c = [] then st
          else
            let st1 := { st with
              buffer := st.buffer ++ c
              bytes := st.bytes + c.length
              chunkCount := st.chunkCount + 1 }
            let st2 :=
              if st1.chunkCount % 3 = 0 ∧ st1.buffer.length > 200000 then
                runCheckpoint env st1
              else st1
            sessionLoop env maxFrames rest st2
    else st

/-- A value stored in the summary JSON document: the counters relevant to the
claims are kept as numbers or strings, the remaining entries (durations,
timestamps, the raw config dict) as `other`. -/
inductive SVal where
  | nat (n : Nat)
  | str (s : String)
  | other
deriving DecidableEq

/-- Embedding of `_save_live_summary` (lines 608-626): the keys of the persisted
`live_consumption_summary.json` document, in source order. -/
def save_live_summary (saved chunkCount totalBytes targetFps maxFrames : Nat)
    (streamName sessionDir : String) : List (String × SVal) :=
  [("frames_extracted", SVal.nat saved),
   ("total_chunks_processed", SVal.nat chunkCount),
   ("processing_duration_seconds", SVal.other),
   ("total_bytes_read", SVal.nat totalBytes),
   ("target_fps", SVal.nat targetFps),
   ("max_frames_limit", SVal.nat maxFrames),
   ("kvs_stream", SVal.str streamName),
   ("consumption_method", SVal.str "Live_Stream_Frame_Extraction"),
   ("config", SVal.other),
   ("session_dir", SVal.str sessionDir),
   ("completed_at", SVal.other)]

/-- Result of `_process_live_stream_data`: final state, the persisted summary
document, and the returned boolean. -/
structure ProcessResult where
  state : SessState
  summary : List (String × SVal)
  result : Bool
deriving DecidableEq

/-- Embedding of `_process_live_stream_data` (lines 166-314): run the reading loop, perform
the final extraction attempt on the remaining buffer (lines 273-282), persist
the summary (lines 307-310), and return `saved_count > 0` (line 312). -/
def process_live_stream_data (env : SessionEnv) (maxFrames targetFps : Nat)
    (streamName sessionDir : String) : ProcessResult :=
  let st := sessionLoop env maxFrames env.chunks initState
  let st1 :=
    if st.buffer.length > 50000 ∧ st.frames < maxFrames then
      let r := extract_frames_from_stream_buffer (env.cenv st.cascades) st.buffer
        st.frames
      { st with
        frames := if r.count > 0 then st.frames + r.count else st.frames
        saved := if r.count > 0 then st.saved + r.count else st.saved
        persisted := st.persisted ++ r.persisted
        cascades := st.cascades + 1
        scratch := st.scratch ++ r.scratch }
    else st
  { state := st1
    summary := save_live_summary st1.saved st1.chunkCount st1.bytes targetFps
      maxFrames streamName sessionDir
    result := st1.saved > 0 }

/-- Embedding of `consume_stream` (lines 83-164): on a startup failure (`get_media` raising)
the method returns `False` without processing; otherwise it returns the result
of `_process_live_stream_data`. -/
def consume_stream (env : SessionEnv) (maxFrames targetFps : Nat)
    (streamName sessionDir : String) : Bool :=
  if env.startupOk then
    (process_live_stream_data env maxFrames targetFps streamName sessionDir).result
  else false

/-! ### Lemmas about the container trial decoder -/

theorem containerDecodeLoop_le (offset maxF : Nat) (reads : List (Option Bool)) :
    ∀ (fc ex : Nat) (acc : List Nat),
      (containerDecodeLoop offset maxF reads fc ex acc).1 ≤ ex + (maxF - fc) := by
  induction reads with
  | nil => intro fc ex acc; simp [containerDecodeLoop]
  | cons r rest ih =>
    intro fc ex acc
    cases r with
    | none =>
      simp only [containerDecodeLoop]
      split <;> exact Nat.le_add_right _ _
    | some w =>
      simp only [containerDecodeLoop]
      split
      · cases w with
        | true =>
          rw [if_pos rfl]
          have := ih (fc + 1) (ex + 1) (acc ++ [offset + ex + 1])
          omega
        | false =>
          rw [if_neg (by simp)]
          have := ih fc ex acc
          omega
      · exact Nat.le_add_right _ _

theorem containerDecodeLoop_persisted (offset maxF : Nat)
    (reads : List (Option Bool)) :
    ∀ (fc ex : Nat) (acc : List Nat), acc = List.range' (offset + 1) ex →
      (containerDecodeLoop offset maxF reads fc ex acc).2 =
        List.range' (offset + 1) (containerDecodeLoop offset maxF reads fc ex acc).1 := by
  induction reads with
  | nil => intro fc ex acc h; simpa [containerDecodeLoop] using h
  | cons r rest ih =>
    intro fc ex acc h
    cases r with
    | none =>
      simp only [containerDecodeLoop]
      split <;> exact h
    | some w =>
      simp only [containerDecodeLoop]
      split
      · cases w with
        | true =>
          rw [if_pos rfl]
          refine ih (fc + 1) (ex + 1) (acc ++ [offset + ex + 1]) ?_
          rw [h, List.range'_1_concat]
          congr 2
          omega
        | false =>
          rw [if_neg (by simp)]
          exact ih fc ex acc h
      · exact h

theorem containerAttempt_le (cenv : ContainerEnv) (offset k : Nat) (fmt : String)
    (st : MethodState) :
    (containerAttempt cenv offset k fmt st).extracted ≤
      st.extracted + min 5 (10 - offset) := by
  unfold containerAttempt
  split
  · simp
  · split
    · simpa using containerDecodeLoop_le offset (min 5 (10 - offset))
        (cenv.reads k) 0 st.extracted st.persisted
    · simp

theorem containerAttempt_persisted (cenv : ContainerEnv) (offset k : Nat)
    (fmt : String) (st : MethodState)
    (h : st.persisted = List.range' (offset + 1) st.extracted) :
    (containerAttempt cenv offset k fmt st).persisted =
      List.range' (offset + 1) (containerAttempt cenv offset k fmt st).extracted := by
  unfold containerAttempt
  split
  · simpa using h
  · split
    · simpa using containerDecodeLoop_persisted offset (min 5 (10 - offset))
        (cenv.reads k) 0 st.extracted st.persisted h
    · simpa using h

theorem containerAttempt_scratch (cenv : ContainerEnv) (offset k : Nat)
    (fmt : String) (st : MethodState) (h : st.scratch = []) :
    (containerAttempt cenv offset k fmt st).scratch = [] := by
  unfold containerAttempt
  split
  · simp [h]
  · split <;> simp [h]

theorem containerGo_le (cenv : ContainerEnv) (offset : Nat)
    (l : List (Nat × String)) :
    ∀ (st : MethodState) (tried : Nat), st.extracted ≤ min 5 (10 - offset) →
      ((containerGo cenv offset l st tried).1).extracted ≤ min 5 (10 - offset) := by
  induction l with
  | nil => intro st tried h; simpa [containerGo] using h
  | cons p rest ih =>
    intro st tried h
    obtain ⟨k, fmt⟩ := p
    simp only [containerGo]
    split
    · exact h
    · refine ih _ _ ?_
      have hz : st.extracted = 0 := by omega
      have := containerAttempt_le cenv offset k fmt st
      omega

theorem containerGo_persisted (cenv : ContainerEnv) (offset : Nat)
    (l : List (Nat × String)) :
    ∀ (st : MethodState) (tried : Nat),
      st.persisted = List.range' (offset + 1) st.extracted →
      ((containerGo cenv offset l st tried).1).persisted =
        List.range' (offset + 1) ((containerGo cenv offset l st tried).1).extracted := by
  induction l with
  | nil => intro st tried h; simpa [containerGo] using h
  | cons p rest ih =>
    intro st tried h
    obtain ⟨k, fmt⟩ := p
    simp only [containerGo]
    split
    · exact h
    · exact ih _ _ (containerAttempt_persisted cenv offset k fmt st h)

theorem containerGo_scratch (cenv : ContainerEnv) (offset : Nat)
    (l : List (Nat × String)) :
    ∀ (st : MethodState) (tried : Nat), st.scratch = [] →
      ((containerGo cenv offset l st tried).1).scratch = [] := by
  induction l with
  | nil => intro st tried h; simpa [containerGo] using h
  | cons p rest ih =>
    intro st tried h
    obtain ⟨k, fmt⟩ := p
    simp only [containerGo]
    split
    · exact h
    · exact ih _ _ (containerAttempt_scratch cenv offset k fmt st h)

theorem containerGo_tried (cenv : ContainerEnv) (offset : Nat)
    (l : List (Nat × String)) :
    ∀ (st : MethodState) (tried : Nat),
      (containerGo cenv offset l st tried).2 = tried + l.length ∨
        ((containerGo cenv offset l st tried).1).extracted > 0 := by
  induction l with
  | nil => intro st tried; simp [containerGo]
  | cons p rest ih =>
    intro st tried
    obtain ⟨k, fmt⟩ := p
    simp only [containerGo]
    split
    · rename_i hgt; right; exact hgt
    · rcases ih (containerAttempt cenv offset k fmt st) (tried + 1) with h | h
      · left; rw [h]; simp; omega
      · right; exact h

/-! ### Lemmas about the embedded-image scanner -/

theorem jpegScanLoop_le (valid : List Nat → Bool) (buf : List Nat)
    (offset : Nat) :
    ∀ (fuel pos count : Nat) (acc : List Nat), count ≤ 5 →
      (jpegScanLoop valid buf offset fuel pos count acc).1 ≤ 5 := by
  intro fuel
  induction fuel with
  | zero => intro pos count acc h; simpa [jpegScanLoop] using h
  | succ fuel ih =>
    intro pos count acc h
    simp only [jpegScanLoop]
    split
    · split
      · exact h
      · split
        · exact ih _ _ _ h
        · split
          · refine ih _ _ _ ?_
            rename_i hguard _ _ _
            omega
          · exact ih _ _ _ h
    · exact h

theorem jpegScanLoop_persisted (valid : List Nat → Bool) (buf : List Nat)
    (offset : Nat) :
    ∀ (fuel pos count : Nat) (acc : List Nat),
      acc = List.range' (offset + 1) count →
      (jpegScanLoop valid buf offset fuel pos count acc).2 =
        List.range' (offset + 1) (jpegScanLoop valid buf offset fuel pos count acc).1 := by
  intro fuel
  induction fuel with
  | zero => intro pos count acc h; simpa [jpegScanLoop] using h
  | succ fuel ih =>
    intro pos count acc h
    simp only [jpegScanLoop]
    split
    · split
      · exact h
      · split
        · exact ih _ _ _ h
        · split
          · refine ih _ _ _ ?_
            rw [h, List.range'_1_concat]
            congr 2
            omega
          · exact ih _ _ _ h
    · exact h

theorem extract_jpeg_le (valid : List Nat → Bool) (buf : List Nat)
    (offset : Nat) : (extract_jpeg_from_buffer valid buf offset).1 ≤ 5 :=
  jpegScanLoop_le valid buf offset _ 0 0 [] (by omega)

theorem extract_jpeg_persisted (valid : List Nat → Bool) (buf : List Nat)
    (offset : Nat) :
    (extract_jpeg_from_buffer valid buf offset).2 =
      List.range' (offset + 1) (extract_jpeg_from_buffer valid buf offset).1 :=
  jpegScanLoop_persisted valid buf offset _ 0 0 [] (by simp)

/-! ### Lemmas about the raw codec-unit scanner -/

/-- The trace predicate of the raw scanner: the scan position after an attempt
is the match position plus the fixed stride 1000. -/
def advanceByStride (e : RawTraceEntry) : Bool := e.newPos == e.matchPos + 1000

theorem rawScanLoop_le (decode : Bool → List Nat → Bool) (buf : List Nat)
    (offset : Nat) :
    ∀ (fuel pos count : Nat) (acc : List Nat) (tr : List RawTraceEntry)
      (scratch : List String), count ≤ 3 →
      (rawScanLoop decode buf offset fuel pos count acc tr scratch).count ≤ 3 := by
  intro fuel
  induction fuel with
  | zero => intro pos count acc tr scratch h; simpa [rawScanLoop] using h
  | succ fuel ih =>
    intro pos count acc tr scratch h
    simp only [rawScanLoop]
    split
    · split
      · exact h
      · split
        · refine ih _ _ _ _ _ ?_
          rename_i hguard _ _
          omega
        · exact ih _ _ _ _ _ h
    · exact h

theorem rawScanLoop_persisted (decode : Bool → List Nat → Bool) (buf : List Nat)
    (offset : Nat) :
    ∀ (fuel pos count : Nat) (acc : List Nat) (tr : List RawTraceEntry)
      (scratch : List String), acc = List.range' (offset + 1) count →
      (rawScanLoop decode buf offset fuel pos count acc tr scratch).persisted =
        List.range' (offset + 1)
          (rawScanLoop decode buf offset fuel pos count acc tr scratch).count := by
  intro fuel
  induction fuel with
  | zero => intro pos count acc tr scratch h; simpa [rawScanLoop] using h
  | succ fuel ih =>
    intro pos count acc tr scratch h
    simp only [rawScanLoop]
    split
    · split
      · exact h
      · split
        · refine ih _ _ _ _ _ ?_
          rw [h, List.range'_1_concat]
          congr 2
          omega
        · exact ih _ _ _ _ _ h
    · exact h

theorem rawScanLoop_scratch (decode : Bool → List Nat → Bool) (buf : List Nat)
    (offset : Nat) :
    ∀ (fuel pos count : Nat) (acc : List Nat) (tr : List RawTraceEntry),
      (rawScanLoop decode buf offset fuel pos count acc tr []).scratch = [] := by
  intro fuel
  induction fuel with
  | zero => intro pos count acc tr; simp [rawScanLoop]
  | succ fuel ih =>
    intro pos count acc tr
    simp only [rawScanLoop]
    split
    · split
      · rfl
      · simp only [try_decode_raw_frame]
        split
        · simp only [List.nil_append, List.erase_cons_head]
          exact ih _ _ _ _
        · simp only [List.nil_append, List.erase_cons_head]
          exact ih _ _ _ _
    · rfl

theorem rawScanLoop_advance (decode : Bool → List Nat → Bool) (buf : List Nat)
    (offset : Nat) :
    ∀ (fuel pos count : Nat) (acc : List Nat) (tr : List RawTraceEntry)
      (scratch : List String), tr.all advanceByStride = true →
      (rawScanLoop decode buf offset fuel pos count acc tr scratch).trace.all
        advanceByStride = true := by
  intro fuel
  induction fuel with
  | zero => intro pos count acc tr scratch h; simpa [rawScanLoop] using h
  | succ fuel ih =>
    intro pos count acc tr scratch h
    simp only [rawScanLoop]
    split
    · split
      · exact h
      · split
        · refine ih _ _ _ _ _ ?_
          simp [h, advanceByStride]
        · refine ih _ _ _ _ _ ?_
          simp [h, advanceByStride]
    · exact h

theorem extract_raw_le (decode : Bool → List Nat → Bool) (buf : List Nat)
    (offset : Nat) (scratch : List String) :
    (extract_raw_video_frames decode buf offset scratch).count ≤ 3 :=
  rawScanLoop_le decode buf offset _ 0 0 [] [] scratch (by omega)

theorem extract_raw_persisted (decode : Bool → List Nat → Bool) (buf : List Nat)
    (offset : Nat) (scratch : List String) :
    (extract_raw_video_frames decode buf offset scratch).persisted =
      List.range' (offset + 1)
        (extract_raw_video_frames decode buf offset scratch).count :=
  rawScanLoop_persisted decode buf offset _ 0 0 [] [] scratch (by simp)

theorem extract_raw_scratch (decode : Bool → List Nat → Bool) (buf : List Nat)
    (offset : Nat) :
    (extract_raw_video_frames decode buf offset []).scratch = [] :=
  rawScanLoop_scratch decode buf offset _ 0 0 [] []

theorem extract_raw_advance (decode : Bool → List Nat → Bool) (buf : List Nat)
    (offset : Nat) (scratch : List String) :
    (extract_raw_video_frames decode buf offset scratch).trace.all
      advanceByStride = true :=
  rawScanLoop_advance decode buf offset _ 0 0 [] [] scratch (by simp)

/-! ### Lemmas about the extraction cascade -/

theorem cascadeFallbacks_scratch (env : CascadeEnv) (buf : List Nat)
    (offset : Nat) (st1 : MethodState) (tried : Nat) (h : st1.scratch = []) :
    (cascadeFallbacks env buf offset st1 tried).scratch = [] := by
  unfold cascadeFallbacks
  dsimp only
  split <;> split <;>
    first
      | (rw [h]; exact extract_raw_scratch _ _ _)
      | exact h

theorem cascadeFallbacks_count_le (env : CascadeEnv) (buf : List Nat)
    (offset : Nat) (st1 : MethodState) (tried : Nat) (h : st1.extracted ≤ 5) :
    (cascadeFallbacks env buf offset st1 tried).count ≤ 5 := by
  have hj := extract_jpeg_le env.jpegValid buf offset
  have hr := extract_raw_le env.rawDecode buf offset st1.scratch
  unfold cascadeFallbacks
  dsimp only
  split
  · split
    · rename_i hz hbeq
      simp only [beq_iff_eq] at hbeq
      omega
    · rename_i hz hbeq
      dsimp only
      omega
  · split
    · rename_i hz hbeq
      simp only [beq_iff_eq] at hbeq
      omega
    · rename_i hz hbeq
      dsimp only
      omega

theorem cascadeFallbacks_persisted (env : CascadeEnv) (buf : List Nat)
    (offset : Nat) (st1 : MethodState) (tried : Nat)
    (hst : st1.persisted = List.range' (offset + 1) st1.extracted) :
    (cascadeFallbacks env buf offset st1 tried).persisted =
      List.range' (offset + 1) (cascadeFallbacks env buf offset st1 tried).count := by
  have hjp := extract_jpeg_persisted env.jpegValid buf offset
  have hrp := extract_raw_persisted env.rawDecode buf offset st1.scratch
  unfold cascadeFallbacks
  dsimp only
  generalize hJ : extract_jpeg_from_buffer env.jpegValid buf offset = jj at hjp ⊢
  generalize hR : extract_raw_video_frames env.rawDecode buf offset st1.scratch = rr
    at hrp ⊢
  obtain ⟨jc, jp⟩ := jj
  obtain ⟨rc, rp, rt, rs⟩ := rr
  dsimp only at hjp hrp ⊢
  split
  · rename_i hz
    split
    · rename_i hbeq
      simp only [beq_iff_eq] at hbeq
      have hj0 : jc = 0 := by omega
      subst hj0
      rw [hst, hz, hjp, hrp]
      simp
    · rename_i hbeq
      rw [hst, hz, hjp]
      simp
  · rename_i hz
    split
    · rename_i hbeq
      have hb2 : st1.extracted = 0 := by simpa using hbeq
      exact absurd hb2 hz
    · rename_i hbeq
      rw [hst]
      simp


theorem cascade_scratch (env : CascadeEnv) (buf : List Nat) (offset : Nat) :
    (extract_frames_from_stream_buffer env buf offset).scratch = [] := by
  unfold extract_frames_from_stream_buffer
  exact cascadeFallbacks_scratch env buf offset _ _
    (containerGo_scratch env.container offset indexedFormats ⟨0, [], []⟩ 0 rfl)

theorem cascade_container_le (env : CascadeEnv) (buf : List Nat) (offset : Nat) :
    (extract_frames_from_stream_buffer env buf offset).containerCount ≤
      min 5 (10 - offset) := by
  unfold extract_frames_from_stream_buffer cascadeFallbacks
  exact containerGo_le env.container offset indexedFormats ⟨0, [], []⟩ 0 (by simp)

theorem cascade_count_le (env : CascadeEnv) (buf : List Nat) (offset : Nat) :
    (extract_frames_from_stream_buffer env buf offset).count ≤ 5 := by
  unfold extract_frames_from_stream_buffer
  refine cascadeFallbacks_count_le env buf offset _ _ ?_
  have h1 := containerGo_le env.container offset indexedFormats ⟨0, [], []⟩ 0 (by simp)
  omega

theorem cascade_persisted (env : CascadeEnv) (buf : List Nat) (offset : Nat) :
    (extract_frames_from_stream_buffer env buf offset).persisted =
      List.range' (offset + 1)
        (extract_frames_from_stream_buffer env buf offset).count := by
  unfold extract_frames_from_stream_buffer
  exact cascadeFallbacks_persisted env buf offset _ _
    (containerGo_persisted env.container offset indexedFormats ⟨0, [], []⟩ 0
      (by simp))

theorem cascade_tried (env : CascadeEnv) (buf : List Nat) (offset : Nat) :
    (extract_frames_from_stream_buffer env buf offset).candidatesTried = 3 ∨
      (extract_frames_from_stream_buffer env buf offset).containerCount > 0 := by
  have h := containerGo_tried env.container offset indexedFormats ⟨0, [], []⟩ 0
  unfold extract_frames_from_stream_buffer cascadeFallbacks
  dsimp only
  rcases h with h | h
  · left
    rw [h]
    simp [indexedFormats]
  · right
    exact h

/-! ### Lemmas about the session loop -/

/-- The session invariant: the persisted frame indices are exactly `1..frames`,
`saved_count` equals `frames_extracted`, no scratch files remain, and the frame
count exceeds the configured target by at most 4. -/
def SessInv (maxFrames : Nat) (st : SessState) : Prop :=
  st.persisted = List.range' 1 st.frames ∧ st.saved = st.frames ∧
    st.scratch = [] ∧ st.frames ≤ maxFrames + 4

theorem runCheckpoint_inv (env : SessionEnv) (maxFrames : Nat) (st : SessState)
    (hlt : st.frames < maxFrames) (hinv : SessInv maxFrames st) :
    SessInv maxFrames (runCheckpoint env st) := by
  obtain ⟨hp, hs, hsc, _⟩ := hinv
  have hc := cascade_count_le (env.cenv st.cascades) st.buffer st.frames
  have hpp := cascade_persisted (env.cenv st.cascades) st.buffer st.frames
  have hss := cascade_scratch (env.cenv st.cascades) st.buffer st.frames
  unfold runCheckpoint
  dsimp only
  generalize hE : extract_frames_from_stream_buffer (env.cenv st.cascades)
    st.buffer st.frames = r at hc hpp hss ⊢
  unfold SessInv
  split
  · rename_i hpos
    dsimp only
    refine ⟨?_, by omega, by rw [hsc, hss]; rfl, by omega⟩
    rw [hp, hpp, show st.frames + 1 = 1 + st.frames by omega,
      show st.frames + r.count = r.count + st.frames by omega]
    exact List.range'_append_1 1 st.frames r.count
  · rename_i hzero
    dsimp only
    have h0 : r.count = 0 := by omega
    refine ⟨?_, hs, by rw [hsc, hss]; rfl, by omega⟩
    rw [hp, hpp, h0]
    simp

theorem sessionLoop_inv (env : SessionEnv) (maxFrames : Nat)
    (chunks : List (List Nat)) :
    ∀ st : SessState, SessInv maxFrames st →
      SessInv maxFrames (sessionLoop env maxFrames chunks st) := by
  induction chunks with
  | nil =>
    intro st h
    unfold sessionLoop
    dsimp only
    split
    · split
      · exact h
      · split
        · exact h
        · exact h
    · exact h
  | cons c rest ih =>
    intro st h
    unfold sessionLoop
    dsimp only
    split
    · rename_i hlt
      split
      · exact h
      · split
        · exact h
        · split
          · exact h
          · by_cases hcp :
              ((st.chunkCount + 1) % 3 = 0 ∧ (st.buffer ++ c).length > 200000)
            · rw [if_pos hcp]
              refine ih _ (runCheckpoint_inv env maxFrames _ ?_ ?_)
              · exact hlt
              · exact h
            · rw [if_neg hcp]
              exact ih _ h
    · exact h

theorem process_state_inv (env : SessionEnv) (maxFrames targetFps : Nat)
    (streamName sessionDir : String) :
    SessInv maxFrames
      (process_live_stream_data env maxFrames targetFps streamName
        sessionDir).state := by
  have h0 : SessInv maxFrames initState := by
    refine ⟨?_, rfl, rfl, by simp [initState]⟩
    simp [initState]
  have hloop := sessionLoop_inv env maxFrames env.chunks initState h0
  unfold process_live_stream_data
  dsimp only
  generalize hS : sessionLoop env maxFrames env.chunks initState = st at hloop
  obtain ⟨hp, hs, hsc, hb⟩ := hloop
  split
  · rename_i hcond
    have hc := cascade_count_le (env.cenv st.cascades) st.buffer st.frames
    have hpp := cascade_persisted (env.cenv st.cascades) st.buffer st.frames
    have hss := cascade_scratch (env.cenv st.cascades) st.buffer st.frames
    generalize hE : extract_frames_from_stream_buffer (env.cenv st.cascades)
      st.buffer st.frames = r at hc hpp hss
    unfold SessInv
    dsimp only
    split
    · rename_i hpos
      refine ⟨?_, by omega, by rw [hsc, hss]; rfl, by omega⟩
      rw [hp, hpp, show st.frames + 1 = 1 + st.frames by omega,
        show st.frames + r.count = r.count + st.frames by omega]
      exact List.range'_append_1 1 st.frames r.count
    · rename_i hzero
      have h0' : r.count = 0 := by omega
      refine ⟨?_, hs, by rw [hsc, hss]; rfl, by omega⟩
      rw [hp, hpp, h0']
      simp
  · exact ⟨hp, hs, hsc, hb⟩

theorem process_result_iff (env : SessionEnv) (maxFrames targetFps : Nat)
    (streamName sessionDir : String) :
    ((process_live_stream_data env maxFrames targetFps streamName
        sessionDir).result = true ↔
      0 < (process_live_stream_data env maxFrames targetFps streamName
        sessionDir).state.saved) := by
  unfold process_live_stream_data
  dsimp only
  exact decide_eq_true_iff

theorem process_summary_eq (env : SessionEnv) (maxFrames targetFps : Nat)
    (streamName sessionDir : String) :
    (process_live_stream_data env maxFrames targetFps streamName
        sessionDir).summary =
      save_live_summary
        (process_live_stream_data env maxFrames targetFps streamName
          sessionDir).state.saved
        (process_live_stream_data env maxFrames targetFps streamName
          sessionDir).state.chunkCount
        (process_live_stream_data env maxFrames targetFps streamName
          sessionDir).state.bytes
        targetFps maxFrames streamName sessionDir := by
  unfold process_live_stream_data
  dsimp only

/-! ### Further helper lemmas -/

theorem sessionLoop_nil (env : SessionEnv) (maxFrames : Nat) (st : SessState) :
    sessionLoop env maxFrames [] st = st := by
  unfold sessionLoop
  dsimp only
  split
  · split
    · rfl
    · split <;> rfl
  · rfl

theorem containerAttempt_closed (cenv : ContainerEnv) (offset k : Nat)
    (fmt : String) (st : MethodState) (h : cenv.isOpened k = false) :
    (containerAttempt cenv offset k fmt st).extracted = st.extracted := by
  unfold containerAttempt
  split
  · rfl
  · rw [h]
    simp

theorem containerGo_closed (cenv : ContainerEnv) (offset : Nat)
    (hopen : ∀ k, cenv.isOpened k = false) :
    ∀ (l : List (Nat × String)) (st : MethodState) (tried : Nat),
      st.extracted = 0 →
      ((containerGo cenv offset l st tried).1.extracted = 0 ∧
        (containerGo cenv offset l st tried).2 = tried + l.length) := by
  intro l
  induction l with
  | nil => intro st tried h; simp [containerGo, h]
  | cons p rest ih =>
    intro st tried h
    obtain ⟨k, fmt⟩ := p
    simp only [containerGo]
    split
    · rename_i hgt
      exact absurd h (by omega)
    · have hext := containerAttempt_closed cenv offset k fmt st (hopen k)
      have h2 : (containerAttempt cenv offset k fmt st).extracted = 0 := by
        rw [hext, h]
      obtain ⟨ha, hb⟩ := ih (containerAttempt cenv offset k fmt st) (tried + 1) h2
      refine ⟨ha, ?_⟩
      rw [hb]
      simp only [List.length_cons]
      omega

/-! ### Claim theorems -/

/-- Claim C1 (amended): frames_extracted is a natural number (never negative),
but it can exceed the configured target `max_frames` by up to 4: the reading
loop fires a checkpoint only while `frames_extracted < max_frames` (line 200),
and one checkpoint can add up to 5 frames at once (lines 376, 450, 521), so the
tight bound is `frames_extracted ≤ max_frames + 4`, not
`frames_extracted ≤ max_frames`. -/
theorem C1_frames_bound (env : SessionEnv) (maxFrames targetFps : Nat)
    (streamName sessionDir : String) :
    (process_live_stream_data env maxFrames targetFps streamName
      sessionDir).state.frames ≤ maxFrames + 4 :=
  (process_state_inv env maxFrames targetFps streamName sessionDir).2.2.2

/-- Claim C2: within one session the persisted frame sequence numbers are
exactly `1, 2, ..., frames_extracted` in order - strictly increasing from 1,
no gaps, each number used exactly once - whichever of the three extraction
strategies produced each frame, for every possible stream and decoder
behaviour. -/
theorem C2_sequence_numbers (env : SessionEnv) (maxFrames targetFps : Nat)
    (streamName sessionDir : String) :
    (process_live_stream_data env maxFrames targetFps streamName
        sessionDir).state.persisted =
      List.range' 1
        (process_live_stream_data env maxFrames targetFps streamName
          sessionDir).state.frames :=
  (process_state_inv env maxFrames targetFps streamName sessionDir).1

/-- Claim C3 (amended): for a stream whose first read returns empty the session
ends with `frames_extracted = 0` and no scratch files, and a summary is still
persisted whose `frames_extracted` entry is 0 - but the summary contains NO
termination-reason entry at all: `_save_live_summary` (lines 608-626) writes
eleven keys and `termination_reason` is not among them ("stream ended" is only
printed to the console, line 218, never persisted). -/
theorem C3_empty_stream (env : SessionEnv) (maxFrames targetFps : Nat)
    (streamName sessionDir : String) (h : env.chunks = []) :
    (process_live_stream_data env maxFrames targetFps streamName
        sessionDir).state.frames = 0 ∧
      (process_live_stream_data env maxFrames targetFps streamName
        sessionDir).state.scratch = [] ∧
      (process_live_stream_data env maxFrames targetFps streamName
        sessionDir).summary.lookup "frames_extracted" = some (SVal.nat 0) ∧
      (process_live_stream_data env maxFrames targetFps streamName
        sessionDir).summary.lookup "termination_reason" = none := by
  unfold process_live_stream_data
  rw [h, sessionLoop_nil]
  dsimp only
  rw [if_neg (by simp [initState])]
  exact ⟨rfl, rfl, rfl, rfl⟩

/-- Claim C4 (amended): at a checkpoint whose buffer holds exactly one valid
embedded image and no container structure (no candidate is openable), the
embedded-image scanner extracts exactly 1 frame and the raw codec-unit scanner
is never invoked - but the container trial decoder IS invoked first: all three
container candidates are always attempted (extracting 0 frames) before the
embedded-image scanner runs; only the raw scanner is short-circuited. -/
theorem C4_jpeg_shortcircuit (env : CascadeEnv) (buf : List Nat) (offset : Nat)
    (hopen : ∀ k, env.container.isOpened k = false)
    (hjpeg : (extract_jpeg_from_buffer env.jpegValid buf offset).1 = 1) :
    (extract_frames_from_stream_buffer env buf offset).count = 1 ∧
      (extract_frames_from_stream_buffer env buf offset).jpegCount = 1 ∧
      (extract_frames_from_stream_buffer env buf offset).invokedRaw = false ∧
      (extract_frames_from_stream_buffer env buf offset).candidatesTried = 3 := by
  obtain ⟨hc1, hc2⟩ := containerGo_closed env.container offset hopen
    indexedFormats ⟨0, [], []⟩ 0 rfl
  have hc3 : (containerGo env.container offset indexedFormats
      ⟨0, [], []⟩ 0).2 = 3 := by
    rw [hc2]
    simp [indexedFormats]
  unfold extract_frames_from_stream_buffer cascadeFallbacks
  dsimp only
  rw [hc1]
  simp [hjpeg, hc3]

/-- Claim C5 (amended): at every checkpoint the container trial decoder
persists at most `min(5, 10 - frames_already_extracted)` frames - the
`remaining-target` in the per-candidate cap is computed against the HARDCODED
constant 10 of line 376, not against the session's configured target
`stream_config['max_frames']`, so a candidate may decode more frames than
remain toward the configured target. -/
theorem C5_candidate_cap (env : CascadeEnv) (buf : List Nat) (offset : Nat) :
    (extract_frames_from_stream_buffer env buf offset).containerCount ≤
      min 5 (10 - offset) :=
  cascade_container_le env buf offset

/-- Claim C6 (amended): in the raw codec-unit scanner the scan position after
every attempt, successful or failed, is the match position plus the same fixed
stride of 1000 bytes (line 548) - the advance after a success is NOT larger
than the advance after a failure, and it does not skip the consumed 51200-byte
candidate window. -/
theorem C6_advance_stride (decode : Bool → List Nat → Bool) (buf : List Nat)
    (offset : Nat) (scratch : List String) :
    (extract_raw_video_frames decode buf offset scratch).trace.all
      advanceByStride = true :=
  extract_raw_advance decode buf offset scratch

/-- Claim C7: one invocation of the extraction cascade is a total function of
the buffer and the decoder oracles (no exception escapes: every decoder error
is a value of the oracle, handled inside), its frame count is a natural number
(hence non-negative, possibly 0), no scratch file remains on any path
(deletion sits in `finally` blocks, lines 410-417, 598-604), and when a
candidate fails - including by a raised write error - the next candidate is
still tried: either all 3 candidates were attempted or some candidate
succeeded. -/
theorem C7_cascade_safe (env : CascadeEnv) (buf : List Nat) (offset : Nat) :
    (extract_frames_from_stream_buffer env buf offset).scratch = [] ∧
      ((extract_frames_from_stream_buffer env buf offset).candidatesTried = 3 ∨
        (extract_frames_from_stream_buffer env buf offset).containerCount > 0) :=
  ⟨cascade_scratch env buf offset, cascade_tried env buf offset⟩

/-- Claim C8: one invocation of the embedded-image scanner extracts and
persists at most its fixed cap of 5 images, for every buffer and every decoder
behaviour - including buffers with many more marker pairs than the cap - and
the list of persisted frames has exactly that length.  The scan itself is a
total function whose loop strictly advances the position, bounded by the
buffer length (guard `pos < len(buffer) - 1000`, line 450). -/
theorem C8_jpeg_cap (valid : List Nat → Bool) (buf : List Nat) (offset : Nat) :
    (extract_jpeg_from_buffer valid buf offset).1 ≤ 5 ∧
      (extract_jpeg_from_buffer valid buf offset).2.length =
        (extract_jpeg_from_buffer valid buf offset).1 := by
  refine ⟨extract_jpeg_le valid buf offset, ?_⟩
  rw [extract_jpeg_persisted]
  simp

/-- Claim C9: immediately after the buffer trim the buffer never exceeds the
500000-byte hard cap; the trim either leaves the buffer unchanged (when it was
not above the cap) or reduces it to exactly the most recent 300000-byte tail,
and the result is always a suffix of the pre-trim buffer (bytes kept in read
order, never reordered). -/
theorem C9_trim_invariant (buf : List Nat) :
    (trimBuffer buf).length ≤ 500000 ∧ trimBuffer buf <:+ buf ∧
      (trimBuffer buf = buf ∨ (trimBuffer buf).length = 300000) := by
  unfold trimBuffer
  split
  · rename_i hgt
    refine ⟨?_, List.drop_suffix _ _, Or.inr ?_⟩ <;>
      · simp only [List.length_drop]
        omega
  · rename_i hle
    exact ⟨by omega, List.suffix_refl buf, Or.inl rfl⟩

/-- Claim C10: when the stream handle is usable at start, the session's boolean
result is true exactly when at least one frame was persisted; a session that
completes normally with zero frames returns false - the same value
`consume_stream` returns on a fatal startup failure - while its summary is
still assembled with the session's frame count. -/
theorem C10_result_iff (env : SessionEnv) (maxFrames targetFps : Nat)
    (streamName sessionDir : String) :
    ((process_live_stream_data env maxFrames targetFps streamName
        sessionDir).result = true ↔
      (process_live_stream_data env maxFrames targetFps streamName
        sessionDir).state.persisted ≠ []) ∧
      (process_live_stream_data env maxFrames targetFps streamName
        sessionDir).summary.lookup "frames_extracted" =
        some (SVal.nat
          (process_live_stream_data env maxFrames targetFps streamName
            sessionDir).state.frames) ∧
      consume_stream { env with startupOk := false } maxFrames targetFps
        streamName sessionDir = false := by
  have hinv := process_state_inv env maxFrames targetFps streamName sessionDir
  refine ⟨?_, ?_, ?_⟩
  · have h1 := process_result_iff env maxFrames targetFps streamName sessionDir
    rw [hinv.2.1] at h1
    refine h1.trans ?_
    rw [hinv.1]
    simp only [ne_eq, List.range'_eq_nil]
    omega
  · rw [process_summary_eq, hinv.2.1]
    simp [save_live_summary, List.lookup]
  · simp [consume_stream]

/-! ### Concrete runs used by the counterexamples and witnesses -/

/-- One 70000-byte chunk of the overshoot stream. -/
def chunk70000 : List Nat := List.replicate 70000 0

theorem chunk70000_length : chunk70000.length = 70000 := by
  rw [chunk70000]
  exact List.length_replicate _ _

theorem chunk70000_ne_nil : ¬(chunk70000 = []) := by
  intro h
  have h2 := chunk70000_length
  rw [h] at h2
  simp at h2

/-- Decoder oracle under which the first container candidate opens and yields
five decodable frames, each written successfully. -/
def cenvFive : CascadeEnv :=
  { container :=
      { writeRaises := fun _ => false
        isOpened := fun k => k == 0
        reads := fun _ => [some true, some true, some true, some true, some true] }
    jpegValid := fun _ => false
    rawDecode := fun _ _ => false }

/-- Session environment of the overshoot run: three 70000-byte chunks, no
timeout, no read errors, the `cenvFive` decoder at every checkpoint. -/
def envOvershoot : SessionEnv :=
  { chunks := [chunk70000, chunk70000, chunk70000]
    timeout := fun _ => false
    readRaises := fun _ => false
    cenv := fun _ => cenvFive
    startupOk := true }

set_option maxHeartbeats 2000000 in
/-- Evaluation of the overshoot session: after three chunks the checkpoint
fires at 210000 buffered bytes with zero frames extracted, the first container
candidate delivers 5 frames at once, and the loop then stops with
`frames_extracted = 5` against a configured target of 3. -/
theorem overshoot_run (c : List Nat) (hc : (c = []) = False)
    (hlen : c.length = 70000) (env : SessionEnv)
    (henv : env = { chunks := [c, c, c], timeout := fun _ => false,
                    readRaises := fun _ => false, cenv := fun _ => cenvFive,
                    startupOk := true }) :
    (process_live_stream_data env 3 30 "s" "d").state.frames = 5 ∧
      (process_live_stream_data env 3 30 "s" "d").state.checkpointLog =
        [(0, 5, 5)] := by
  subst henv
  constructor <;>
    simp [process_live_stream_data, sessionLoop, runCheckpoint, trimBuffer,
      extract_frames_from_stream_buffer, cascadeFallbacks, containerGo,
      containerAttempt, containerDecodeLoop, containerScratchName,
      indexedFormats, cenvFive, initState, hc, hlen, Nat.min_def,
      List.erase_cons_head, List.length_append]

/-- Claim C1 is falsified here: with configured target `max_frames = 3` the
session ends with `frames_extracted = 5`, violating
`frames_extracted ≤ target_frame_count`. -/
theorem C1_counterexample :
    (process_live_stream_data envOvershoot 3 30 "s" "d").state.frames = 5 ∧
      ¬((process_live_stream_data envOvershoot 3 30 "s" "d").state.frames ≤ 3) := by
  have h := (overshoot_run chunk70000 (eq_false chunk70000_ne_nil)
    chunk70000_length envOvershoot rfl).1
  refine ⟨h, ?_⟩
  rw [h]
  omega

/-- Claim C5 is falsified here: at the only checkpoint of the overshoot run
the offset is 0, the remaining amount toward the configured target 3 is 3, yet
the openable container candidate decodes and persists 5 frames, exceeding
`min(per-call cap, remaining-target) = min(5, 3) = 3`. -/
theorem C5_counterexample :
    (process_live_stream_data envOvershoot 3 30 "s" "d").state.checkpointLog =
        [(0, 5, 5)] ∧
      ¬(5 ≤ min 5 (3 - 0)) := by
  refine ⟨(overshoot_run chunk70000 (eq_false chunk70000_ne_nil)
    chunk70000_length envOvershoot rfl).2, ?_⟩
  decide

/-- Session environment whose stream returns empty on the very first read. -/
def envEmpty : SessionEnv :=
  { chunks := []
    timeout := fun _ => false
    readRaises := fun _ => false
    cenv := fun _ => cenvFive
    startupOk := true }

/-- Claim C3 is falsified here: for the empty stream the session does end with
`frames_extracted = 0`, but the persisted summary has NO termination-reason
entry at all, so its termination reason cannot be the claimed
`"stream ended"`. -/
theorem C3_counterexample :
    (process_live_stream_data envEmpty 10 5 "stream1" "sess").state.frames = 0 ∧
      (process_live_stream_data envEmpty 10 5 "stream1" "sess").summary.lookup
        "termination_reason" = none := by
  unfold process_live_stream_data
  rw [show envEmpty.chunks = [] from rfl, sessionLoop_nil]
  dsimp only
  rw [if_neg (by simp [initState])]
  exact ⟨rfl, rfl⟩

/-- Witness for the amended claim C3 at a concrete empty-stream session. -/
theorem C3_witness :
    (process_live_stream_data envEmpty 7 2 "s" "d").state.frames = 0 ∧
      (process_live_stream_data envEmpty 7 2 "s" "d").state.scratch = [] ∧
      (process_live_stream_data envEmpty 7 2 "s" "d").summary.lookup
        "frames_extracted" = some (SVal.nat 0) ∧
      (process_live_stream_data envEmpty 7 2 "s" "d").summary.lookup
        "termination_reason" = none :=
  C3_empty_stream envEmpty 7 2 "s" "d" rfl

/-- A buffer holding exactly one well-formed JPEG marker pair around a small
payload, padded so the scanner's length guard admits one iteration. -/
def bufOneJpeg : List Nat :=
  [0xFF, 0xD8, 0x11, 0xFF, 0xD9] ++ List.replicate 997 0

/-- Decoder oracle with no openable container candidate and an image decoder
that accepts every extracted candidate. -/
def cenvClosed : CascadeEnv :=
  { container :=
      { writeRaises := fun _ => false
        isOpened := fun _ => false
        reads := fun _ => [] }
    jpegValid := fun _ => true
    rawDecode := fun _ _ => false }

/-- The embedded-image scanner extracts exactly one image from a buffer that
is one marker pair followed by marker-free padding. -/
theorem jpeg_pair_scan (tail : List Nat) (hlen : tail.length = 997) :
    (extract_jpeg_from_buffer (fun _ => true)
      ([0xFF, 0xD8, 0x11, 0xFF, 0xD9] ++ tail) 0).1 = 1 := by
  simp [extract_jpeg_from_buffer, jpegScanLoop, bufFind, subFind,
    jpegStartMarker, jpegEndMarker, List.length_append, hlen,
    List.isPrefixOf_cons₂]

/-- Claim C4 is falsified here: on a buffer with exactly one valid embedded
image and no openable container, the embedded-image scanner does extract 1
frame and the raw scanner is not invoked, but the container trial decoder IS
invoked: all 3 of its candidates are attempted at this checkpoint. -/
theorem C4_counterexample :
    (extract_frames_from_stream_buffer cenvClosed bufOneJpeg 0).candidatesTried
        = 3 ∧
      (extract_frames_from_stream_buffer cenvClosed bufOneJpeg 0).jpegCount = 1 ∧
      (extract_frames_from_stream_buffer cenvClosed bufOneJpeg 0).invokedRaw
        = false := by
  obtain ⟨hc1, hc2⟩ := containerGo_closed cenvClosed.container 0 (fun _ => rfl)
    indexedFormats ⟨0, [], []⟩ 0 rfl
  have hc3 : (containerGo cenvClosed.container 0 indexedFormats
      ⟨0, [], []⟩ 0).2 = 3 := by
    rw [hc2]
    simp [indexedFormats]
  have hj : (extract_jpeg_from_buffer cenvClosed.jpegValid bufOneJpeg 0).1 = 1 :=
    jpeg_pair_scan (List.replicate 997 0) (List.length_replicate _ _)
  unfold extract_frames_from_stream_buffer cascadeFallbacks
  dsimp only
  rw [hc1]
  simp [hj, hc3]

/-- Witness for the amended claim C4 on the concrete one-image buffer. -/
theorem C4_witness :
    (extract_frames_from_stream_buffer cenvClosed bufOneJpeg 0).count = 1 ∧
      (extract_frames_from_stream_buffer cenvClosed bufOneJpeg 0).jpegCount = 1 ∧
      (extract_frames_from_stream_buffer cenvClosed bufOneJpeg 0).invokedRaw
        = false ∧
      (extract_frames_from_stream_buffer cenvClosed bufOneJpeg 0).candidatesTried
        = 3 :=
  C4_jpeg_shortcircuit cenvClosed bufOneJpeg 0 (fun _ => rfl)
    (jpeg_pair_scan (List.replicate 997 0) (List.length_replicate _ _))

/-- A buffer beginning with an H.264 4-byte start code, padded with bytes that
the scanner's loop bound never lets it revisit after the first attempt. -/
def bufH264 : List Nat :=
  [0x00, 0x00, 0x00, 0x01] ++ List.replicate 10050 0xAA

/-- On a buffer whose earliest codec signature sits at position 0, one raw-scan
attempt happens and the scan position then advances to 1000, whether the
decode succeeded or failed. -/
theorem h264_raw_trace (tail : List Nat) (hlen : tail.length = 10050)
    (b : Bool) :
    (extract_raw_video_frames (fun _ _ => b)
        (0x00 :: 0x00 :: 0x00 :: 0x01 :: tail) 0 []).trace =
      [⟨0, true, b, 1000⟩] := by
  have h4 : bufFind (0x00 :: 0x00 :: 0x00 :: 0x01 :: tail) h264StartCode4 0 =
      some 0 := by
    simp [bufFind, subFind, h264StartCode4]
  have hes : earliestSignature (0x00 :: 0x00 :: 0x00 :: 0x01 :: tail) 0 =
      some (0, true) := by
    cases h3 : bufFind (0x00 :: 0x00 :: 0x00 :: 0x01 :: tail) h264StartCode3 0 <;>
      cases h8 : bufFind (0x00 :: 0x00 :: 0x00 :: 0x01 :: tail) vp8Keyframe 0 <;>
        cases h9 : bufFind (0x00 :: 0x00 :: 0x00 :: 0x01 :: tail) vp9FrameSig 0 <;>
          simp [earliestSignature, allSignatures, h4, h3, h8, h9,
            Nat.not_lt_zero]
  cases b <;>
    simp [extract_raw_video_frames, rawScanLoop, hes, try_decode_raw_frame,
      hlen, List.erase_cons_head]

/-- Claim C6 is falsified here: on a buffer whose first codec-unit candidate
starts at position 0, the scan position after a SUCCESSFUL decode is 1000 and
after a FAILED decode is also 1000 - the success advance is not strictly
larger than the failure advance, and 1000 is well inside the 10054-byte
candidate window extracted at position 0. -/
theorem C6_counterexample :
    (extract_raw_video_frames (fun _ _ => true) bufH264 0 []).trace =
        [⟨0, true, true, 1000⟩] ∧
      (extract_raw_video_frames (fun _ _ => false) bufH264 0 []).trace =
        [⟨0, true, false, 1000⟩] ∧
      bufH264.length = 10054 ∧ 1000 < 10054 ∧ ¬(1000 > 1000) := by
  refine ⟨h264_raw_trace (List.replicate 10050 0xAA)
      (List.length_replicate _ _) true,
    h264_raw_trace (List.replicate 10050 0xAA)
      (List.length_replicate _ _) false, ?_, by omega, by omega⟩
  rw [bufH264, List.length_append, List.length_replicate]
  decide

end VideoCapture
